import Mathlib

/-!
Shallow embedding of the query-classification-and-response engine of
`src/streamlit_app.py` (a Streamlit chatbot over a static roster of cricket
players), together with theorems settling the frozen claims about it.

Modelling conventions:

* Python strings are Lean `String`s.  The character-level primitives
  (`str.strip`, `str.lower`, `str.isdigit`, `int(...)`) are modelled on the
  character universe actually exercised by the development: ASCII plus the
  Latin-1 superscript digits `'¹' '²' '³'` (U+00B9, U+00B2, U+00B3).  On that
  universe the models agree with CPython: `str.isdigit` is true for the ASCII
  decimal digits and for the superscript digits (Unicode `Numeric_Type=Digit`),
  while `int(...)` accepts only the decimal digits and raises `ValueError` on
  the superscripts; `str.lower` maps `A`-`Z` to `a`-`z` and fixes everything
  else; `str.strip` removes the whitespace characters space, tab, CR, LF at
  both ends.
* A Python `dict` loaded from JSON distinguishes a missing key from a key
  whose value is `null` (`None`).  `Name`, `University` and `Category` are
  required fields (spec §3, §6) and are plain `String` fields.  Every access
  the program makes to `Value` (`p.get('Value') is not None`, then
  `p['Value']`) treats a missing key and a `null` value identically, so
  `value : Option Int` merges the two.  `Player Points` is accessed both with
  `p.get("Player Points")` (merging) and with `p.get('Player Points', 'N/A')`
  (whose default fires only when the key is missing), so
  `points : Option (Option Int)` keeps the three states apart:
  `none` = key missing, `some none` = key present with `null`,
  `some (some n)` = key present with number `n`.
* JSON numbers in the roster are modelled as `Int`.
* Code that can raise is modelled in `Except String`; the error payload names
  the Python exception class.
* The fuzzy scorer is external library code (`fuzzywuzzy`), not part of this
  repository; following the spec (§4.2 rule 4, §9 Design Notes) it is
  abstracted as a parameter `scorer : String → String → Nat` producing a
  similarity score, with the acceptance threshold fixed at 60.
-/

namespace PlayerChatbot

/-! ## Character-level primitives -/

/-- Decimal digit characters `0`-`9`: the characters `int(...)` accepts. -/
def isDigitC (c : Char) : Bool := 48 ≤ c.toNat && c.toNat ≤ 57

/-- Model of Python `str.isdigit` on the modelled universe: the ASCII decimal
digits plus the Latin-1 superscript digits `¹ ² ³`, which have Unicode
`Numeric_Type=Digit` and therefore satisfy `str.isdigit` in CPython while
being rejected by `int(...)`. -/
def pyIsDigit (c : Char) : Bool :=
  isDigitC c || c.toNat = 185 || c.toNat = 178 || c.toNat = 179

/-- Whitespace characters stripped by Python `str.strip` (ASCII part:
space, tab, carriage return, line feed). -/
def isSpaceC (c : Char) : Bool :=
  c.toNat = 32 || c.toNat = 9 || c.toNat = 13 || c.toNat = 10

/-- Model of Python `str.lower` on one character (ASCII case mapping;
all other modelled characters are fixed, as in CPython). -/
def toLowerC (c : Char) : Char :=
  if 65 ≤ c.toNat && c.toNat ≤ 90 then Char.ofNat (c.toNat + 32) else c

/-- Model of Python `str.upper` on one character (ASCII case mapping). -/
def toUpperC (c : Char) : Char :=
  if 97 ≤ c.toNat && c.toNat ≤ 122 then Char.ofNat (c.toNat - 32) else c

/-- Alphabetic test used by the `str.title` model (ASCII letters). -/
def isAlphaC (c : Char) : Bool :=
  (65 ≤ c.toNat && c.toNat ≤ 90) || (97 ≤ c.toNat && c.toNat ≤ 122)

/-- Python `s.lower()`. -/
def pyLower (s : String) : String := ⟨s.data.map toLowerC⟩

/-- Python `s.strip()` on a character list: drop whitespace at both ends. -/
def pyStripL (cs : List Char) : List Char :=
  ((cs.dropWhile isSpaceC).reverse.dropWhile isSpaceC).reverse

/-- Python `s.strip()`. -/
def pyStrip (s : String) : String := ⟨pyStripL s.data⟩

/-- Python substring containment `pat in hay` on character lists. -/
def strContainsL (hay pat : List Char) : Bool :=
  (List.range (hay.length + 1)).any (fun i => pat.isPrefixOf (hay.drop i))

/-- Python substring containment `pat in hay`. -/
def strContains (hay pat : String) : Bool := strContainsL hay.data pat.data

/-- Python `s.isdigit()`: non-empty and every character a digit character. -/
def pyStrIsDigit (s : String) : Bool := !s.data.isEmpty && s.data.all pyIsDigit

/-- Numeric value of a string of decimal digit characters. -/
def digitsVal (s : String) : Nat :=
  s.data.foldl (fun acc c => 10 * acc + (c.toNat - 48)) 0

/-- Model of Python `int(s)` as used on a string that already passed
`s.isdigit()`: it succeeds exactly on non-empty strings of decimal digits
and raises `ValueError` otherwise (in particular on the superscript digits,
which pass `isdigit` but are not decimal digits). -/
def pyInt (s : String) : Except String Nat :=
  if !s.data.isEmpty && s.data.all isDigitC then Except.ok (digitsVal s)
  else Except.error "ValueError"

/-- Python `s.title()` on a character list: uppercase an ASCII letter that
does not follow a letter, lowercase the other letters, fix the rest.  The
boolean argument records whether the previous character was alphabetic. -/
def pyTitleL : List Char → Bool → List Char
  | [], _ => []
  | c :: cs, prevAlpha =>
    (if isAlphaC c then (if prevAlpha then toLowerC c else toUpperC c) else c)
      :: pyTitleL cs (isAlphaC c)

/-- Python `s.title()`. -/
def pyTitle (s : String) : String := ⟨pyTitleL s.data false⟩

/-! ## Data model -/

/-- One roster record, the image of one JSON object of `data.json`.
`name`, `university`, `category` are the required fields `Name`,
`University`, `Category`.  `value` models the `Value` entry with a missing
key and a `null` value merged (the program only ever tests
`p.get('Value') is not None`, which cannot tell them apart).  `points`
models the `Player Points` entry three-valued: `none` = key missing,
`some none` = key present with `null`, `some (some n)` = number `n`;
the distinction is observable through `p.get('Player Points', 'N/A')`. -/
structure Player where
  name : String
  university : String
  category : String
  value : Option Int
  points : Option (Option Int)
deriving DecidableEq

/-- The filter of the best/worst branch:
`p.get("Player Points") is not None` (a missing key and `null` both fail). -/
def hasPoints (p : Player) : Bool :=
  match p.points with
  | some (some _) => true
  | _ => false

/-- The sort key `lambda p: p.get("Player Points", 0)` of the best/worst
branch.  On records passing `hasPoints` it is the stored number; the
default `0` arm is never reached there.  The same expression renders
`best_player['Player Points']` in the best/worst message, where the filter
guarantees the key holds a number. -/
def pointsKey (p : Player) : Int :=
  match p.points with
  | some (some n) => n
  | _ => 0

/-! ## Formatting helpers (`format_player_info` and message texts) -/

/-- The `Value` rendering `f"${p['Value']}"` with `"N/A"` for an absent
value, shared by `format_player_info` and the detail block. -/
def valueStr (p : Player) : String :=
  match p.value with
  | some v => "$" ++ toString v
  | none => "N/A"

/-- Python `format_player_info(player, index=None)`:
`f"{prefix}{p['Name']} - {p['University']} - {p['Category']} - {value}"`
where the prefix is `f"{index}. "` when an index is passed. -/
def format_player_info (p : Player) (index : Option Nat) : String :=
  (match index with
   | some i => toString i ++ ". "
   | none => "") ++
  p.name ++ " - " ++ p.university ++ " - " ++ p.category ++ " - " ++ valueStr p

/-- Python `get_players_by_category(category)`: records whose `Category`
matches case-insensitively and whose `Value` is present. -/
def get_players_by_category (players : List Player) (category : String) :
    List Player :=
  players.filter
    (fun p => pyLower p.category == pyLower category && p.value.isSome)

/-- The vocabulary `STANDARD_TERMS` of the fuzzy matcher. -/
def STANDARD_TERMS : List String :=
  ["batsman", "bowler", "all-rounder", "player list", "best player",
   "worst player"]

/-- The rendering of the `Player Points` entry in the detail block:
`p.get('Player Points', 'N/A')` interpolated into an f-string.  A missing
key takes the `'N/A'` default; a key present with `null` yields Python
`None`, which the f-string prints as the text `None`. -/
def pointsFieldStr (p : Player) : String :=
  match p.points with
  | some (some n) => toString n
  | some none => "None"
  | none => "N/A"

/-- The detail block of the numeric-lookup branch. -/
def player_details (p : Player) : String :=
  "🏏 **Player Details:**\n" ++
  "**Name:** " ++ p.name ++ "\n" ++
  "**University:** " ++ p.university ++ "\n" ++
  "**Category:** " ++ p.category ++ "\n" ++
  "**Value:** " ++ valueStr p ++ "\n" ++
  "**Points:** " ++ pointsFieldStr p

/-- The out-of-range message of the numeric-lookup branch. -/
def invalid_index_msg (count : Nat) : String :=
  "❌ Invalid player index. Please enter a number between 1 and " ++
  toString count ++ "."

/-- The empty-input prompt. -/
def PROMPT : String := "Please enter a query."

/-- The fallback help message, with the valid numeric range for the
current roster size interpolated by `.format(len(players))`. -/
def fallback_msg (count : Nat) : String :=
  "🤔 I didn't understand your query. Try asking about:\n" ++
  "• **'player list'** - to see all players\n" ++
  "• **'batsman'**, **'bowler'**, or **'all-rounder'** - to filter by category\n" ++
  "• **'best player'** - to see the best and worst players\n" ++
  "• **A number (1-" ++ toString count ++ ")** - to get details about a specific player"

/-! ## Fuzzy matching interface -/

/-- Modelled from the spec: the fuzzy scorer itself
(`fuzzywuzzy.process.extractOne`'s `WRatio`) is external library code absent
from `src/`; per spec §4.2 rule 4 and §9 it is any similarity scoring
function into `[0,100]`.  `extractOne scorer q choices` returns the choice
with the highest score together with its score, the earliest choice winning
ties exactly as Python's `max` does. -/
def extractOne (scorer : String → String → Nat) (q : String) :
    List String → Option (String × Nat)
  | [] => none
  | c :: cs =>
    some (cs.foldl
      (fun b t => if scorer q t > b.2 then (t, scorer q t) else b)
      (c, scorer q c))

/-- Python `get_best_match(user_input, choices, threshold=60)`: `None` on
blank input, otherwise the best match when its score reaches the
threshold. -/
def get_best_match (scorer : String → String → Nat) (user_input : String)
    (choices : List String) (threshold : Nat) : Option String :=
  if (pyStrip user_input).data.isEmpty then none
  else
    match extractOne scorer user_input choices with
    | none => none
    | some mt => if mt.2 ≥ threshold then some mt.1 else none

/-! ## The branches of `process_query` -/

/-- Python `max(valid_players, key=...)`: first element of the list wins
ties because later elements replace the running best only on a strictly
greater key. -/
def pyMax (key : Player → Int) (x : Player) (xs : List Player) : Player :=
  xs.foldl (fun b y => if key y > key b then y else b) x

/-- Python `min(valid_players, key=...)`: first element wins ties. -/
def pyMin (key : Player → Int) (x : Player) (xs : List Player) : Player :=
  xs.foldl (fun b y => if key y < key b then y else b) x

/-- The `"player list"` branch. -/
def list_branch (players : List Player) : Except String String :=
  let valid := players.filter (fun p => p.value.isSome)
  if valid.isEmpty then Except.ok "No players found with valid values."
  else
    Except.ok ("📋 **Player List (" ++ toString valid.length ++ " players):**\n" ++
      String.intercalate "\n"
        (valid.enum.map (fun ip => format_player_info ip.2 (some (ip.1 + 1)))))

/-- The numeric-lookup branch: `int(user_input_lower) - 1`, bounds check,
list indexing.  The `IndexError` arm mirrors Python list indexing and is
unreachable under the preceding bounds check. -/
def digit_branch (players : List Player) (uil : String) : Except String String :=
  match pyInt uil with
  | Except.error e => Except.error e
  | Except.ok n =>
    let index : Int := (n : Int) - 1
    if 0 ≤ index ∧ index < (players.length : Int) then
      match players.get? index.toNat with
      | some p => Except.ok (player_details p)
      | none => Except.error "IndexError"
    else Except.ok (invalid_index_msg players.length)

/-- The best/worst message. -/
def best_worst_msg (best worst : Player) : String :=
  "🏆 **Best Player:** " ++ best.name ++ " - " ++ toString (pointsKey best) ++
  " points\n" ++
  "📉 **Worst Player:** " ++ worst.name ++ " - " ++ toString (pointsKey worst) ++
  " points"

/-- The best/worst branch: filter to records whose `Player Points` is
present (not missing, not `null`), then a linear `max` and `min`. -/
def best_worst_branch (players : List Player) : Except String String :=
  match players.filter hasPoints with
  | [] => Except.ok "No players found with valid points data."
  | x :: xs =>
    Except.ok (best_worst_msg (pyMax pointsKey x xs) (pyMin pointsKey x xs))

/-- The category listing produced when the fuzzy match is a category term. -/
def category_listing (players : List Player) (m : String) : String :=
  let cps := get_players_by_category players m
  if cps.isEmpty then "❌ No " ++ m ++ "s found."
  else
    "🏏 **" ++ pyTitle m ++ "s (" ++ toString cps.length ++ " found):**\n" ++
    String.intercalate "\n"
      (cps.enum.map (fun ip => format_player_info ip.2 (some (ip.1 + 1))))

/-- The fuzzy branch: `get_best_match` over `STANDARD_TERMS`; only the three
category terms are acted on, everything else (including a successful match
to `"player list"`, `"best player"` or `"worst player"`) falls through to
the fallback help message. -/
def fuzzy_branch (scorer : String → String → Nat) (players : List Player)
    (uil : String) : Except String String :=
  match get_best_match scorer uil STANDARD_TERMS 60 with
  | some m =>
    if m == "batsman" || m == "bowler" || m == "all-rounder" then
      Except.ok (category_listing players m)
    else Except.ok (fallback_msg players.length)
  | none => Except.ok (fallback_msg players.length)

/-- Python `process_query(user_input)`.  The global `players` is passed
explicitly; the abstract fuzzy `scorer` stands for the external library.
The result is `Except.error` exactly when the Python function raises. -/
def process_query (scorer : String → String → Nat) (players : List Player)
    (user_input : String) : Except String String :=
  if (pyStrip user_input).data.isEmpty then Except.ok PROMPT
  else
    let uil := pyStrip (pyLower user_input)
    if strContains uil "player list" then list_branch players
    else if pyStrIsDigit uil then digit_branch players uil
    else if strContains uil "best player" || strContains uil "worst player" then
      best_worst_branch players
    else fuzzy_branch scorer players uil

/-- The same function with the global roster modelled as explicit state:
each branch reads the global and the final state is returned alongside the
response, so that absence of mutation is a theorem rather than a
convention. -/
def process_query_global (scorer : String → String → Nat) (user_input : String)
    (st : List Player) : Except String String × List Player :=
  if (pyStrip user_input).data.isEmpty then (Except.ok PROMPT, st)
  else
    let uil := pyStrip (pyLower user_input)
    if strContains uil "player list" then
      let players := st
      (list_branch players, st)
    else if pyStrIsDigit uil then
      let players := st
      (digit_branch players uil, st)
    else if strContains uil "best player" || strContains uil "worst player" then
      let players := st
      (best_worst_branch players, st)
    else
      let players := st
      (fuzzy_branch scorer players uil, st)

/-! ## Roster store -/

/-- Outcome of the attempt to read and parse `data.json`, the two failure
arms being the two `except` clauses of `load_players`. -/
inductive LoadOutcome where
  | ok (ps : List Player)
  | notFound
  | malformed

/-- Python `load_players()`: the parsed roster on success; on
`FileNotFoundError` or `json.JSONDecodeError` an error banner is shown and
the empty list is returned, so the process keeps running with zero
records. -/
def load_players : LoadOutcome → List Player
  | LoadOutcome.ok ps => ps
  | LoadOutcome.notFound => []
  | LoadOutcome.malformed => []

/-! ## Claim-side rendering (for the refinement comparison of C2) -/

/-- The detail block exactly as the claim words it: the points are shown as
`"N/A"` whenever they are absent, a `null` entry counting as absent (the
spec's `PlayerRecord` has a single notion of an absent optional field,
§3 and §6).  To be compared with `player_details`. -/
def player_details_claimed (p : Player) : String :=
  "🏏 **Player Details:**\n" ++
  "**Name:** " ++ p.name ++ "\n" ++
  "**University:** " ++ p.university ++ "\n" ++
  "**Category:** " ++ p.category ++ "\n" ++
  "**Value:** " ++ valueStr p ++ "\n" ++
  "**Points:** " ++
    (match p.points with
     | some (some n) => toString n
     | _ => "N/A")

/-! ## Concrete instances used by witnesses and counterexamples -/

/-- A scorer that gives every pair the score `0`: a valid similarity
scorer under which no input reaches the threshold. -/
def scorer0 : String → String → Nat := fun _ _ => 0

/-- A scorer under which the misspelling `"player lst"` matches the term
`"player list"` with score `95` (as any reasonable edit-similarity scorer
would) and every other pair scores `0`. -/
def scorerPL : String → String → Nat :=
  fun q t => if q == "player lst" && t == "player list" then 95 else 0

/-- Witness roster entry with value and points present. -/
def pW1 : Player := Player.mk "Kusal Perera" "UoC" "Batsman" (some 45) (some (some 88))

/-- Witness roster entry with a lower score than `pW1`. -/
def pW2 : Player := Player.mk "Ashen Silva" "UoM" "Bowler" (some 30) (some (some 40))

/-- Witness roster. -/
def psW : List Player := [pW1, pW2]

/-- A record whose `Player Points` key is present with the value `null`. -/
def pNull : Player := Player.mk "Nimal Dias" "UoP" "Batsman" (some 50) (some none)

/-- Roster exhibiting the `null`-points rendering of the detail block. -/
def psNull : List Player := [pNull]

/-! ## Basic facts about the string primitives -/

lemma pyStrip_data (s : String) : (pyStrip s).data = pyStripL s.data := rfl

lemma pyLower_data (s : String) : (pyLower s).data = s.data.map toLowerC := rfl

lemma toLowerC_of_space {c : Char} (h : isSpaceC c = true) : toLowerC c = c := by
  simp only [isSpaceC, Bool.or_eq_true, decide_eq_true_eq] at h
  have h2 : ¬((65 ≤ c.toNat && c.toNat ≤ 90) = true) := by
    simp only [Bool.and_eq_true, decide_eq_true_eq, not_and, not_le]
    omega
  simp [toLowerC, h2]

lemma toLowerC_of_digit {c : Char} (h : isDigitC c = true) : toLowerC c = c := by
  simp only [isDigitC, Bool.and_eq_true, decide_eq_true_eq] at h
  have h2 : ¬((65 ≤ c.toNat && c.toNat ≤ 90) = true) := by
    simp only [Bool.and_eq_true, decide_eq_true_eq, not_and, not_le]
    omega
  simp [toLowerC, h2]

lemma isSpaceC_of_digit {c : Char} (h : isDigitC c = true) : isSpaceC c = false := by
  simp only [isDigitC, Bool.and_eq_true, decide_eq_true_eq] at h
  simp only [isSpaceC, Bool.or_eq_false_iff, decide_eq_false_iff_not]
  omega

lemma pyStripL_eq_nil_iff {cs : List Char} :
    pyStripL cs = [] ↔ ∀ c ∈ cs, isSpaceC c = true := by
  unfold pyStripL
  rw [List.reverse_eq_nil_iff, List.dropWhile_eq_nil_iff]
  constructor
  · intro h c hc
    rw [← List.takeWhile_append_dropWhile isSpaceC cs] at hc
    rcases List.mem_append.mp hc with h1 | h1
    · exact List.mem_takeWhile_imp h1
    · exact h c (List.mem_reverse.mpr h1)
  · intro h c hc
    exact h c (List.Sublist.mem (List.mem_reverse.mp hc)
      (List.dropWhile_sublist isSpaceC))

lemma pyStrip_ne_of_lower {s : String} (h : (pyStrip (pyLower s)).data ≠ []) :
    (pyStrip s).data ≠ [] := by
  intro hnil
  apply h
  rw [pyStrip_data, pyLower_data, pyStripL_eq_nil_iff]
  rw [pyStrip_data, pyStripL_eq_nil_iff] at hnil
  intro c hc
  rcases List.mem_map.mp hc with ⟨a, ha, rfl⟩
  rw [toLowerC_of_space (hnil a ha)]
  exact hnil a ha

lemma dropWhile_eq_self_of_none {p : Char → Bool} {l : List Char}
    (h : ∀ c ∈ l, p c = false) : l.dropWhile p = l := by
  cases l with
  | nil => rfl
  | cons c cs => simp [List.dropWhile_cons, h c (List.mem_cons_self c cs)]

lemma pyStripL_eq_self {cs : List Char} (h : ∀ c ∈ cs, isSpaceC c = false) :
    pyStripL cs = cs := by
  unfold pyStripL
  rw [dropWhile_eq_self_of_none h,
    dropWhile_eq_self_of_none (fun c hc => h c (List.mem_reverse.mp hc)),
    List.reverse_reverse]

lemma strContains_mem {hay pat : String} (h : strContains hay pat = true) :
    ∀ c ∈ pat.data, c ∈ hay.data := by
  intro c hc
  unfold strContains strContainsL at h
  rcases List.any_eq_true.mp h with ⟨i, _, hpre⟩
  rcases List.isPrefixOf_iff_prefix.mp hpre with ⟨t, ht⟩
  have hd : c ∈ hay.data.drop i := by
    rw [← ht]; exact List.mem_append_left t hc
  exact List.Sublist.mem hd (List.drop_sublist i hay.data)

lemma strContains_hay_ne {hay pat : String} (h : strContains hay pat = true)
    (hp : pat.data ≠ []) : hay.data ≠ [] := by
  rcases List.exists_mem_of_ne_nil pat.data hp with ⟨c, hc⟩
  intro h0
  have hm := strContains_mem h c hc
  rw [h0] at hm
  simp at hm

lemma strContains_eq_false_of_digits {s pat : String} {c : Char}
    (hc : c ∈ pat.data) (hcd : isDigitC c = false)
    (h : ∀ a ∈ s.data, isDigitC a = true) : strContains s pat = false := by
  cases hcon : strContains s pat with
  | false => rfl
  | true =>
    have := h c (strContains_mem hcon c hc)
    rw [hcd] at this
    exact Bool.noConfusion this

lemma pyStrip_lower_digits {s : String} (h : ∀ c ∈ s.data, isDigitC c = true) :
    pyStrip (pyLower s) = s := by
  have hmap : s.data.map toLowerC = s.data := by
    have h2 : ∀ a ∈ s.data, toLowerC a = id a :=
      fun a ha => toLowerC_of_digit (h a ha)
    rw [List.map_congr_left h2, List.map_id]
  show String.mk (pyStripL (pyLower s).data) = s
  rw [pyLower_data, hmap,
    pyStripL_eq_self (fun c hc => isSpaceC_of_digit (h c hc))]

lemma pyStrIsDigit_of_digits {s : String} (hne : s.data ≠ [])
    (h : ∀ c ∈ s.data, isDigitC c = true) : pyStrIsDigit s = true := by
  unfold pyStrIsDigit
  rw [Bool.and_eq_true]
  refine ⟨by simp [List.isEmpty_iff, hne], ?_⟩
  rw [List.all_eq_true]
  intro c hc
  unfold pyIsDigit
  rw [h c hc]
  simp

lemma pyInt_of_digits {s : String} (hne : s.data ≠ [])
    (h : ∀ c ∈ s.data, isDigitC c = true) :
    pyInt s = Except.ok (digitsVal s) := by
  unfold pyInt
  rw [if_pos]
  rw [Bool.and_eq_true]
  exact ⟨by simp [List.isEmpty_iff, hne], List.all_eq_true.mpr h⟩

/-! ## Specification of the Python `max`/`min` scans -/

theorem pyMax_spec (key : Player → Int) :
    ∀ (xs : List Player) (x : Player),
      pyMax key x xs ∈ x :: xs ∧
      (∀ q ∈ x :: xs, key q ≤ key (pyMax key x xs)) ∧
      ∃ l1 l2, x :: xs = l1 ++ pyMax key x xs :: l2 ∧
        ∀ q ∈ l1, key q < key (pyMax key x xs) := by
  intro xs
  induction xs with
  | nil =>
    intro x
    refine ⟨List.mem_cons_self x [], ?_, [], [], rfl, by simp⟩
    intro q hq
    simp only [List.mem_cons, List.not_mem_nil, or_false] at hq
    simp [pyMax, hq]
  | cons y ys ih =>
    intro x
    by_cases hc : key y > key x
    · have hstep : pyMax key x (y :: ys) = pyMax key y ys := by
        simp [pyMax, List.foldl_cons, hc]
      obtain ⟨hmem, hub, l1, l2, hdec, hless⟩ := ih y
      rw [hstep]
      have hyr : key y ≤ key (pyMax key y ys) := hub y (List.mem_cons_self y ys)
      refine ⟨List.mem_cons_of_mem x hmem, ?_, x :: l1, l2, ?_, ?_⟩
      · intro q hq
        rcases List.mem_cons.mp hq with rfl | hq2
        · omega
        · exact hub q hq2
      · rw [List.cons_append, ← hdec]
      · intro q hq
        rcases List.mem_cons.mp hq with rfl | hq2
        · omega
        · exact hless q hq2
    · have hstep : pyMax key x (y :: ys) = pyMax key x ys := by
        simp [pyMax, List.foldl_cons, hc]
      obtain ⟨hmem, hub, l1, l2, hdec, hless⟩ := ih x
      rw [hstep]
      have hyx : key y ≤ key x := by omega
      have hxr : key x ≤ key (pyMax key x ys) := hub x (List.mem_cons_self x ys)
      refine ⟨?_, ?_, ?_⟩
      · rcases List.mem_cons.mp hmem with h1 | h1
        · rw [h1]; exact List.mem_cons_self x (y :: ys)
        · exact List.mem_cons_of_mem x (List.mem_cons_of_mem y h1)
      · intro q hq
        rcases List.mem_cons.mp hq with rfl | hq2
        · exact hxr
        rcases List.mem_cons.mp hq2 with rfl | hq3
        · omega
        · exact hub q (List.mem_cons_of_mem x hq3)
      · cases l1 with
        | nil =>
          have h1 := hdec
          rw [List.nil_append] at h1
          refine ⟨[], y :: l2, ?_, by simp⟩
          rw [List.nil_append]
          rw [List.cons.injEq] at h1 ⊢
          exact ⟨h1.1, by rw [List.cons.injEq]; exact ⟨rfl, h1.2⟩⟩
        | cons a t =>
          rw [List.cons_append, List.cons.injEq] at hdec
          obtain ⟨rfl, h2⟩ := hdec
          have hax : key x < key (pyMax key x ys) :=
            hless x (List.mem_cons_self x t)
          refine ⟨x :: y :: t, l2, ?_, ?_⟩
          · rw [List.cons_append, List.cons.injEq]
            exact ⟨rfl, by rw [List.cons_append, ← h2]⟩
          · intro q hq
            rcases List.mem_cons.mp hq with rfl | hq2
            · exact hax
            rcases List.mem_cons.mp hq2 with rfl | hq3
            · omega
            · exact hless q (List.mem_cons_of_mem x hq3)

theorem pyMin_spec (key : Player → Int) :
    ∀ (xs : List Player) (x : Player),
      pyMin key x xs ∈ x :: xs ∧
      (∀ q ∈ x :: xs, key (pyMin key x xs) ≤ key q) ∧
      ∃ l1 l2, x :: xs = l1 ++ pyMin key x xs :: l2 ∧
        ∀ q ∈ l1, key (pyMin key x xs) < key q := by
  intro xs
  induction xs with
  | nil =>
    intro x
    refine ⟨List.mem_cons_self x [], ?_, [], [], rfl, by simp⟩
    intro q hq
    simp only [List.mem_cons, List.not_mem_nil, or_false] at hq
    simp [pyMin, hq]
  | cons y ys ih =>
    intro x
    by_cases hc : key y < key x
    · have hstep : pyMin key x (y :: ys) = pyMin key y ys := by
        simp [pyMin, List.foldl_cons, hc]
      obtain ⟨hmem, hlb, l1, l2, hdec, hmore⟩ := ih y
      rw [hstep]
      have hyr : key (pyMin key y ys) ≤ key y := hlb y (List.mem_cons_self y ys)
      refine ⟨List.mem_cons_of_mem x hmem, ?_, x :: l1, l2, ?_, ?_⟩
      · intro q hq
        rcases List.mem_cons.mp hq with rfl | hq2
        · omega
        · exact hlb q hq2
      · rw [List.cons_append, ← hdec]
      · intro q hq
        rcases List.mem_cons.mp hq with rfl | hq2
        · omega
        · exact hmore q hq2
    · have hstep : pyMin key x (y :: ys) = pyMin key x ys := by
        simp [pyMin, List.foldl_cons, hc]
      obtain ⟨hmem, hlb, l1, l2, hdec, hmore⟩ := ih x
      rw [hstep]
      have hyx : key x ≤ key y := by omega
      have hxr : key (pyMin key x ys) ≤ key x := hlb x (List.mem_cons_self x ys)
      refine ⟨?_, ?_, ?_⟩
      · rcases List.mem_cons.mp hmem with h1 | h1
        · rw [h1]; exact List.mem_cons_self x (y :: ys)
        · exact List.mem_cons_of_mem x (List.mem_cons_of_mem y h1)
      · intro q hq
        rcases List.mem_cons.mp hq with rfl | hq2
        · exact hxr
        rcases List.mem_cons.mp hq2 with rfl | hq3
        · omega
        · exact hlb q (List.mem_cons_of_mem x hq3)
      · cases l1 with
        | nil =>
          have h1 := hdec
          rw [List.nil_append] at h1
          refine ⟨[], y :: l2, ?_, by simp⟩
          rw [List.nil_append]
          rw [List.cons.injEq] at h1 ⊢
          exact ⟨h1.1, by rw [List.cons.injEq]; exact ⟨rfl, h1.2⟩⟩
        | cons a t =>
          rw [List.cons_append, List.cons.injEq] at hdec
          obtain ⟨rfl, h2⟩ := hdec
          have hax : key (pyMin key x ys) < key x :=
            hmore x (List.mem_cons_self x t)
          refine ⟨x :: y :: t, l2, ?_, ?_⟩
          · rw [List.cons_append, List.cons.injEq]
            exact ⟨rfl, by rw [List.cons_append, ← h2]⟩
          · intro q hq
            rcases List.mem_cons.mp hq with rfl | hq2
            · exact hax
            rcases List.mem_cons.mp hq2 with rfl | hq3
            · omega
            · exact hmore q (List.mem_cons_of_mem x hq3)

/-! ## Branch characterizations of `process_query` -/

lemma process_query_unfold (scorer : String → String → Nat) (ps : List Player)
    (s : String) (hne : (pyStrip s).data ≠ []) :
    process_query scorer ps s =
      if strContains (pyStrip (pyLower s)) "player list" then list_branch ps
      else if pyStrIsDigit (pyStrip (pyLower s)) then
        digit_branch ps (pyStrip (pyLower s))
      else if strContains (pyStrip (pyLower s)) "best player" ||
          strContains (pyStrip (pyLower s)) "worst player" then
        best_worst_branch ps
      else fuzzy_branch scorer ps (pyStrip (pyLower s)) := by
  unfold process_query
  rw [if_neg (by simp [List.isEmpty_iff, hne])]

lemma list_branch_nil {ps : List Player}
    (h : ps.filter (fun p => p.value.isSome) = []) :
    list_branch ps = Except.ok "No players found with valid values." := by
  unfold list_branch
  rw [h]
  rfl

lemma list_branch_cons {ps : List Player}
    (h : ps.filter (fun p => p.value.isSome) ≠ []) :
    list_branch ps = Except.ok ("📋 **Player List (" ++
      toString (ps.filter (fun p => p.value.isSome)).length ++ " players):**\n" ++
      String.intercalate "\n" ((ps.filter (fun p => p.value.isSome)).enum.map
        (fun ip => format_player_info ip.2 (some (ip.1 + 1))))) := by
  unfold list_branch
  rw [if_neg (by simp [List.isEmpty_iff, h])]

lemma digit_branch_ok {ps : List Player} {uil : String} {n : Nat}
    (h : pyInt uil = Except.ok n) :
    digit_branch ps uil =
      if 0 ≤ (n : Int) - 1 ∧ (n : Int) - 1 < (ps.length : Int) then
        (match ps.get? ((n : Int) - 1).toNat with
         | some p => Except.ok (player_details p)
         | none => Except.error "IndexError")
      else Except.ok (invalid_index_msg ps.length) := by
  unfold digit_branch
  rw [h]

lemma digit_branch_err {ps : List Player} {uil : String} {e : String}
    (h : pyInt uil = Except.error e) :
    digit_branch ps uil = Except.error e := by
  unfold digit_branch
  rw [h]

lemma best_worst_branch_nil {ps : List Player} (h : ps.filter hasPoints = []) :
    best_worst_branch ps = Except.ok "No players found with valid points data." := by
  unfold best_worst_branch
  rw [h]

lemma best_worst_branch_cons {ps : List Player} {x : Player} {xs : List Player}
    (h : ps.filter hasPoints = x :: xs) :
    best_worst_branch ps =
      Except.ok (best_worst_msg (pyMax pointsKey x xs) (pyMin pointsKey x xs)) := by
  unfold best_worst_branch
  rw [h]

lemma fuzzy_branch_some {scorer : String → String → Nat} {ps : List Player}
    {uil : String} {m : String}
    (h : get_best_match scorer uil STANDARD_TERMS 60 = some m) :
    fuzzy_branch scorer ps uil =
      if m == "batsman" || m == "bowler" || m == "all-rounder" then
        Except.ok (category_listing ps m)
      else Except.ok (fallback_msg ps.length) := by
  unfold fuzzy_branch
  rw [h]

lemma fuzzy_branch_none {scorer : String → String → Nat} {ps : List Player}
    {uil : String}
    (h : get_best_match scorer uil STANDARD_TERMS 60 = none) :
    fuzzy_branch scorer ps uil = Except.ok (fallback_msg ps.length) := by
  unfold fuzzy_branch
  rw [h]

/-! ## The claims -/

/-- C1: the claim says `process_query` is total and never raises; in fact the
numeric-lookup branch fires on any `isdigit`-true input but `int(...)` only
accepts decimal digits, so the single-character query `"²"` (superscript two,
which CPython's `str.isdigit` accepts) raises `ValueError` for every scorer
and every roster.  The code contradicts the spec's stated failure semantics
(never throws; every branch covers its precondition fully). -/
theorem c1_digit_branch_raises (scorer : String → String → Nat)
    (ps : List Player) :
    process_query scorer ps "²" = Except.error "ValueError" := by
  have hne : (pyStrip "²").data ≠ [] := by decide
  have hsl : pyStrip (pyLower "²") = "²" := rfl
  rw [process_query_unfold scorer ps "²" hne, hsl,
    if_neg (by decide), if_pos (by decide)]
  exact digit_branch_err rfl

/-- C2 (counterexample to the claim as stated): on a roster whose single
record has its `Player Points` key present with the value `null`, the detail
block for index 1 is not the claimed one (points shown as `"N/A"` when
absent): the code renders the Python value `None` as the text `None`. -/
theorem c2_counterexample :
    process_query scorer0 psNull "1" ≠
      Except.ok (player_details_claimed pNull) := by
  have h1 : process_query scorer0 psNull "1" =
      Except.ok (player_details pNull) := rfl
  rw [h1]
  intro h
  have h2 : player_details pNull = player_details_claimed pNull :=
    Except.ok.inj h
  revert h2
  decide

/-- C2 (amended): for every roster and every all-decimal-digit input whose
value `i` satisfies `1 ≤ i ≤ count`, `process_query` returns the detail
block of the record at 1-based position `i` of the full unfiltered roster —
name, university, category, value as a currency string (or `"N/A"` when
`Value` is null or missing), and points rendered by
`p.get('Player Points', 'N/A')`: the number when present, `"N/A"` when the
key is missing, and the text `None` when the key holds `null`. -/
theorem c2_numeric_lookup (scorer : String → String → Nat) (ps : List Player)
    (s : String) (i : Nat) (hne : s.data ≠ [])
    (hdig : ∀ c ∈ s.data, isDigitC c = true)
    (hval : digitsVal s = i) (h1 : 1 ≤ i) (hlt : i - 1 < ps.length) :
    process_query scorer ps s =
      Except.ok (player_details (ps.get ⟨i - 1, hlt⟩)) := by
  have hsl : pyStrip (pyLower s) = s := pyStrip_lower_digits hdig
  have hstrip : (pyStrip s).data = s.data := by
    rw [pyStrip_data, pyStripL_eq_self (fun c hc => isSpaceC_of_digit (hdig c hc))]
  have hne2 : (pyStrip s).data ≠ [] := by rw [hstrip]; exact hne
  have hpl : strContains s "player list" = false :=
    strContains_eq_false_of_digits (c := 'p') (by decide) (by decide) hdig
  have hd : pyStrIsDigit s = true := pyStrIsDigit_of_digits hne hdig
  rw [process_query_unfold scorer ps s hne2, hsl, if_neg (by simp [hpl]),
    if_pos hd,
    digit_branch_ok ((pyInt_of_digits hne hdig).trans (by rw [hval])),
    if_pos (by constructor <;> omega)]
  have htn : ((i : Int) - 1).toNat = i - 1 := by omega
  rw [htn, List.get?_eq_get hlt]

/-- C3: an input whose lowercased form contains `"player list"` always takes
the list branch (it precedes every other rule): the response is the header
followed by one formatted line per roster record with a present `value`,
numbered from 1 in the order of that filtered list; when no such record
exists the none-found message is returned. -/
theorem c3_player_list (scorer : String → String → Nat) (ps : List Player)
    (s : String)
    (h : strContains (pyStrip (pyLower s)) "player list" = true) :
    (ps.filter (fun p => p.value.isSome) = [] →
      process_query scorer ps s =
        Except.ok "No players found with valid values.") ∧
    (ps.filter (fun p => p.value.isSome) ≠ [] →
      ∃ entries : List String,
        process_query scorer ps s =
          Except.ok ("📋 **Player List (" ++
            toString (ps.filter (fun p => p.value.isSome)).length ++
            " players):**\n" ++ String.intercalate "\n" entries) ∧
        entries.length = (ps.filter (fun p => p.value.isSome)).length ∧
        ∀ k p, (ps.filter (fun p => p.value.isSome)).get? k = some p →
          entries.get? k = some (format_player_info p (some (k + 1)))) := by
  have hne : (pyStrip s).data ≠ [] :=
    pyStrip_ne_of_lower (strContains_hay_ne h (by decide))
  have heq : process_query scorer ps s = list_branch ps := by
    rw [process_query_unfold scorer ps s hne, if_pos h]
  constructor
  · intro hnil
    rw [heq, list_branch_nil hnil]
  · intro hnn
    refine ⟨(ps.filter (fun p => p.value.isSome)).enum.map
      (fun ip => format_player_info ip.2 (some (ip.1 + 1))), ?_, ?_, ?_⟩
    · rw [heq, list_branch_cons hnn]
    · rw [List.length_map, List.enum_length]
    · intro k p hk
      rw [List.get?_map, List.get?_enum, hk]
      rfl

/-- C4: an input containing `"best player"` or `"worst player"` that matched
no earlier rule restricts to records with a present `Player Points`; if none
exist the no-points message is returned, otherwise one combined message names
a best record whose points bound every points-having record from above and a
worst record bounding them from below, each being the first record of the
filtered sequence attaining the extremum (strict-comparison scan). -/
theorem c4_best_worst (scorer : String → String → Nat) (ps : List Player)
    (s : String)
    (hbw : strContains (pyStrip (pyLower s)) "best player" = true ∨
      strContains (pyStrip (pyLower s)) "worst player" = true)
    (hpl : strContains (pyStrip (pyLower s)) "player list" = false)
    (hdig : pyStrIsDigit (pyStrip (pyLower s)) = false) :
    (ps.filter hasPoints = [] →
      process_query scorer ps s =
        Except.ok "No players found with valid points data.") ∧
    (∀ x xs, ps.filter hasPoints = x :: xs →
      ∃ bp wp, process_query scorer ps s = Except.ok (best_worst_msg bp wp) ∧
        bp ∈ x :: xs ∧ wp ∈ x :: xs ∧
        (∀ q ∈ x :: xs, pointsKey q ≤ pointsKey bp) ∧
        (∀ q ∈ x :: xs, pointsKey wp ≤ pointsKey q) ∧
        (∃ l1 l2, x :: xs = l1 ++ bp :: l2 ∧
          ∀ q ∈ l1, pointsKey q < pointsKey bp) ∧
        (∃ l1 l2, x :: xs = l1 ++ wp :: l2 ∧
          ∀ q ∈ l1, pointsKey wp < pointsKey q)) := by
  have hne0 : (pyStrip (pyLower s)).data ≠ [] := by
    rcases hbw with h | h
    · exact strContains_hay_ne h (by decide)
    · exact strContains_hay_ne h (by decide)
  have hne : (pyStrip s).data ≠ [] := pyStrip_ne_of_lower hne0
  have hor : (strContains (pyStrip (pyLower s)) "best player" ||
      strContains (pyStrip (pyLower s)) "worst player") = true := by
    rcases hbw with h | h
    · rw [h, Bool.true_or]
    · rw [h, Bool.or_true]
  have heq : process_query scorer ps s = best_worst_branch ps := by
    rw [process_query_unfold scorer ps s hne, if_neg (by simp [hpl]),
      if_neg (by simp [hdig]), if_pos hor]
  constructor
  · intro hnil
    rw [heq, best_worst_branch_nil hnil]
  · intro x xs hcons
    obtain ⟨hmem, hub, hdecomp⟩ := pyMax_spec pointsKey xs x
    obtain ⟨hmem2, hlb, hdecomp2⟩ := pyMin_spec pointsKey xs x
    exact ⟨pyMax pointsKey x xs, pyMin pointsKey x xs,
      by rw [heq, best_worst_branch_cons hcons],
      hmem, hmem2, hub, hlb, hdecomp, hdecomp2⟩

/-- C5: every all-decimal-digit input whose value `i` is outside `[1, count]`
(`i = 0` or `i > count`) yields the inline out-of-range message naming the
range `[1, count]`, as an ordinary `Except.ok` response. -/
theorem c5_out_of_range (scorer : String → String → Nat) (ps : List Player)
    (s : String) (i : Nat) (hne : s.data ≠ [])
    (hdig : ∀ c ∈ s.data, isDigitC c = true)
    (hval : digitsVal s = i) (hout : i = 0 ∨ ps.length < i) :
    process_query scorer ps s = Except.ok (invalid_index_msg ps.length) := by
  have hsl : pyStrip (pyLower s) = s := pyStrip_lower_digits hdig
  have hstrip : (pyStrip s).data = s.data := by
    rw [pyStrip_data, pyStripL_eq_self (fun c hc => isSpaceC_of_digit (hdig c hc))]
  have hne2 : (pyStrip s).data ≠ [] := by rw [hstrip]; exact hne
  have hpl : strContains s "player list" = false :=
    strContains_eq_false_of_digits (c := 'p') (by decide) (by decide) hdig
  have hd : pyStrIsDigit s = true := pyStrIsDigit_of_digits hne hdig
  rw [process_query_unfold scorer ps s hne2, hsl, if_neg (by simp [hpl]),
    if_pos hd,
    digit_branch_ok ((pyInt_of_digits hne hdig).trans (by rw [hval])),
    if_neg (by rcases hout with h | h <;> omega)]

/-- C6: `get_players_by_category c` returns exactly the roster records whose
category matches `c` case-insensitively and whose value is present, in
roster order (the result is a sublist of the roster). -/
theorem c6_by_category (ps : List Player) (c : String) :
    (get_players_by_category ps c).Sublist ps ∧
    ∀ p, p ∈ get_players_by_category ps c ↔
      p ∈ ps ∧ pyLower p.category = pyLower c ∧ p.value.isSome = true := by
  refine ⟨List.filter_sublist ps, ?_⟩
  intro p
  unfold get_players_by_category
  rw [List.mem_filter, Bool.and_eq_true, beq_iff_eq]

/-- C7: the claim is right that a failed load degrades to an empty roster
and the process keeps answering queries, but its universal "every subsequent
query degrades to its empty-result message instead of crashing" is broken by
the same `isdigit`/`int` slip as C1: after a failed load the query `"²"`
still raises `ValueError`.  The load part holds: both failure modes return
the empty roster. -/
theorem c7_load_failure_degrades :
    load_players LoadOutcome.notFound = [] ∧
    load_players LoadOutcome.malformed = [] ∧
    process_query scorer0 (load_players LoadOutcome.notFound) "²" =
      Except.error "ValueError" := by
  refine ⟨rfl, rfl, ?_⟩
  have hne : (pyStrip "²").data ≠ [] := by decide
  have hsl : pyStrip (pyLower "²") = "²" := rfl
  rw [process_query_unfold scorer0 (load_players LoadOutcome.notFound) "²" hne,
    hsl, if_neg (by decide), if_pos (by decide)]
  exact digit_branch_err rfl

/-- C8: an empty or whitespace-only input yields the fixed retry prompt, and
an input matching no rule (non-blank, no substring match, not a digit string,
fuzzy matcher returns nothing) yields the fallback help message naming the
valid numeric range for the current roster size. -/
theorem c8_empty_and_fallback (scorer : String → String → Nat)
    (ps : List Player) (s : String) :
    ((pyStrip s).data = [] →
      process_query scorer ps s = Except.ok PROMPT) ∧
    ((pyStrip s).data ≠ [] →
      strContains (pyStrip (pyLower s)) "player list" = false →
      pyStrIsDigit (pyStrip (pyLower s)) = false →
      strContains (pyStrip (pyLower s)) "best player" = false →
      strContains (pyStrip (pyLower s)) "worst player" = false →
      get_best_match scorer (pyStrip (pyLower s)) STANDARD_TERMS 60 = none →
      process_query scorer ps s = Except.ok (fallback_msg ps.length)) := by
  constructor
  · intro h
    unfold process_query
    rw [if_pos (List.isEmpty_iff.mpr h)]
  · intro hne hpl hdig hbp hwp hfz
    rw [process_query_unfold scorer ps s hne, if_neg (by simp [hpl]),
      if_neg (by simp [hdig]), if_neg (by simp [hbp, hwp]),
      fuzzy_branch_none hfz]

/-- C9: `process_query` is a pure function of the pair (input, roster): in
the state-passing model of the global roster, the response equals the pure
function's and the roster state is returned unchanged, so repeated calls with
the same input and roster give the same response and nothing is mutated. -/
theorem c9_pure_function (scorer : String → String → Nat) (s : String)
    (ps : List Player) :
    (process_query_global scorer s ps).1 = process_query scorer ps s ∧
    (process_query_global scorer s ps).2 = ps := by
  simp only [process_query_global, process_query]
  by_cases h1 : (pyStrip s).data.isEmpty = true
  · rw [if_pos h1, if_pos h1]
    exact ⟨rfl, rfl⟩
  · rw [if_neg h1, if_neg h1]
    by_cases h2 : strContains (pyStrip (pyLower s)) "player list" = true
    · rw [if_pos h2, if_pos h2]
      exact ⟨rfl, rfl⟩
    · rw [if_neg h2, if_neg h2]
      by_cases h3 : pyStrIsDigit (pyStrip (pyLower s)) = true
      · rw [if_pos h3, if_pos h3]
        exact ⟨rfl, rfl⟩
      · rw [if_neg h3, if_neg h3]
        by_cases h4 : (strContains (pyStrip (pyLower s)) "best player" ||
            strContains (pyStrip (pyLower s)) "worst player") = true
        · rw [if_pos h4, if_pos h4]
          exact ⟨rfl, rfl⟩
        · rw [if_neg h4, if_neg h4]
          exact ⟨rfl, rfl⟩

/-- C10: although `STANDARD_TERMS` contains all six terms, the fuzzy branch
acts only on the three category terms: when the fuzzy matcher (any scorer)
returns `"player list"`, `"best player"` or `"worst player"` for an input
that reached the fuzzy rule, the response is the fallback help message, not
the list or best/worst response. -/
theorem c10_fuzzy_nonaction (scorer : String → String → Nat) (ps : List Player)
    (s : String) (t : String)
    (hne : (pyStrip s).data ≠ [])
    (hpl : strContains (pyStrip (pyLower s)) "player list" = false)
    (hdig : pyStrIsDigit (pyStrip (pyLower s)) = false)
    (hbp : strContains (pyStrip (pyLower s)) "best player" = false)
    (hwp : strContains (pyStrip (pyLower s)) "worst player" = false)
    (hfz : get_best_match scorer (pyStrip (pyLower s)) STANDARD_TERMS 60 =
      some t)
    (ht : t = "player list" ∨ t = "best player" ∨ t = "worst player") :
    process_query scorer ps s = Except.ok (fallback_msg ps.length) := by
  rw [process_query_unfold scorer ps s hne, if_neg (by simp [hpl]),
    if_neg (by simp [hdig]), if_neg (by simp [hbp, hwp]),
    fuzzy_branch_some hfz, if_neg]
  rcases ht with rfl | rfl | rfl <;> decide

/-! ## Witnesses -/

/-- Witness for C2 (amended): on the two-record witness roster, the query
`"1"` returns the detail block of the first record. -/
theorem c2_numeric_lookup_witness :
    process_query scorer0 psW "1" = Except.ok (player_details pW1) :=
  c2_numeric_lookup scorer0 psW "1" 1 (by decide) (by decide) (by decide)
    (by decide) (by decide)

/-- Witness for C3: on the witness roster both valued records are listed. -/
theorem c3_player_list_witness :
    ∃ entries : List String,
      process_query scorer0 psW "player list" =
        Except.ok ("📋 **Player List (" ++
          toString (psW.filter (fun p => p.value.isSome)).length ++
          " players):**\n" ++ String.intercalate "\n" entries) ∧
      entries.length = (psW.filter (fun p => p.value.isSome)).length ∧
      ∀ k p, (psW.filter (fun p => p.value.isSome)).get? k = some p →
        entries.get? k = some (format_player_info p (some (k + 1))) :=
  (c3_player_list scorer0 psW "player list" (by decide)).2 (by decide)

/-- Witness for C4: on the witness roster the query `"best player"` produces
a best/worst pair satisfying all the stated extremal properties. -/
theorem c4_best_worst_witness :
    ∃ bp wp, process_query scorer0 psW "best player" =
        Except.ok (best_worst_msg bp wp) ∧
      bp ∈ pW1 :: [pW2] ∧ wp ∈ pW1 :: [pW2] ∧
      (∀ q ∈ pW1 :: [pW2], pointsKey q ≤ pointsKey bp) ∧
      (∀ q ∈ pW1 :: [pW2], pointsKey wp ≤ pointsKey q) ∧
      (∃ l1 l2, pW1 :: [pW2] = l1 ++ bp :: l2 ∧
        ∀ q ∈ l1, pointsKey q < pointsKey bp) ∧
      (∃ l1 l2, pW1 :: [pW2] = l1 ++ wp :: l2 ∧
        ∀ q ∈ l1, pointsKey wp < pointsKey q) :=
  (c4_best_worst scorer0 psW "best player" (Or.inl (by decide)) (by decide)
    (by decide)).2 pW1 [pW2] (by decide)

/-- Witness for C5: the query `"0"` on the two-record witness roster gets
the out-of-range message naming the range `[1, 2]`. -/
theorem c5_out_of_range_witness :
    process_query scorer0 psW "0" = Except.ok (invalid_index_msg 2) :=
  c5_out_of_range scorer0 psW "0" 0 (by decide) (by decide) (by decide)
    (Or.inl rfl)

/-- Witness for C8: the empty query gets the retry prompt, and `"xyz123"`
(not numeric, no substring match, and no fuzzy match under the zero scorer)
gets the fallback help message for the witness roster's size. -/
theorem c8_empty_and_fallback_witness :
    process_query scorer0 psW "" = Except.ok PROMPT ∧
    process_query scorer0 psW "xyz123" = Except.ok (fallback_msg 2) :=
  ⟨(c8_empty_and_fallback scorer0 psW "").1 (by decide),
   (c8_empty_and_fallback scorer0 psW "xyz123").2 (by decide) (by decide)
     (by decide) (by decide) (by decide) (by decide)⟩

/-- Witness for C10: under a scorer that fuzzy-matches the misspelling
`"player lst"` to `"player list"` with score 95, the response is the
fallback help message, not the list. -/
theorem c10_fuzzy_nonaction_witness :
    process_query scorerPL psW "player lst" =
      Except.ok (fallback_msg 2) :=
  c10_fuzzy_nonaction scorerPL psW "player lst" "player list" (by decide)
    (by decide) (by decide) (by decide) (by decide) (by decide) (Or.inl rfl)

end PlayerChatbot
